/-
Verification of the gochart-backend session / authentication subsystem.

Shallow embedding of the session service (src/services/sessionService.js),
the Session model (src/models/Session.js), the User model methods, the
auth controller login flows and the two authentication middlewares.
Timestamps are natural numbers counting milliseconds; JWT iat and exp
claims are seconds, converted with Nat division by 1000 exactly as the
JavaScript does with parseInt division.  The bcrypt and sha256 hashes are
modelled as injective string functions, and Mongo document stores as
lists of records with the unique sessionId index expressed as a Nodup
hypothesis on the id projection.
-/
import Mathlib

namespace GoChart

/-! ### Session data model (src/models/Session.js) -/

/-- One session document.  deviceInfo is flattened to the two fields the
policy engine compares; logoutTime is null until logout or eviction. -/
structure Session where
  sessionId : String
  userId : Nat
  email : String
  isActive : Bool
  isOnline : Bool
  userAgent : String
  ipAddress : String
  lastActivity : Nat
  loginTime : Nat
  logoutTime : Option Nat
  expiresAt : Nat
deriving Repr, DecidableEq

/-- MAX_ACTIVE_SESSIONS from the SessionService constructor. -/
def MAX_ACTIVE_SESSIONS : Nat := 2

/-- SESSION_DURATION from the SessionService constructor: 24 hours in ms. -/
def SESSION_DURATION : Nat := 24 * 60 * 60 * 1000

/-- Retention window used by Session.cleanupExpired: 7 days in ms. -/
def SESSION_RETENTION : Nat := 7 * 24 * 60 * 60 * 1000

/-- The filter of Session.getActiveSessions: same user, isActive, and
expiresAt strictly in the future. -/
def activePred (uid now : Nat) (s : Session) : Bool :=
  s.userId == uid && s.isActive && decide (now < s.expiresAt)

/-- Session.getActiveSessions(userId): the active unexpired sessions of
one user (the Mongo sort only orders the list; the service re-sorts). -/
def getActiveSessions (store : List Session) (uid now : Nat) : List Session :=
  store.filter (activePred uid now)

/-- Number of active unexpired sessions of a user at an instant. -/
def countActive (store : List Session) (uid now : Nat) : Nat :=
  (getActiveSessions store uid now).length

/-- The projection of a store to its session ids. -/
def sessionIds (store : List Session) : List String :=
  store.map Session.sessionId

/-- The in-place update of the same-device branch of createSession:
lastActivity, loginTime, isOnline, expiresAt are refreshed. -/
def refreshSession (s : Session) (now : Nat) : Session :=
  { s with lastActivity := now, loginTime := now, isOnline := true,
           expiresAt := now + SESSION_DURATION }

/-- Session.prototype.invalidate: isActive and isOnline drop, logoutTime
is stamped. -/
def invalidateSession (s : Session) (now : Nat) : Session :=
  { s with isActive := false, isOnline := false, logoutTime := some now }

/-- Persisting a mutated document: every stored document with the same
sessionId is overwritten (the id is unique, so exactly one is). -/
def saveReplace (store : List Session) (s : Session) : List Session :=
  store.map fun t => if t.sessionId == s.sessionId then s else t

/-- The fresh document built by new Session({...}) in createSession. -/
def mkNewSession (uid : Nat) (email ip ua : String) (now : Nat) (newId : String) : Session :=
  { sessionId := newId, userId := uid, email := email.toLower,
    isActive := true, isOnline := true, userAgent := ua, ipAddress := ip,
    lastActivity := now, loginTime := now, logoutTime := none,
    expiresAt := now + SESSION_DURATION }

/-- The same-device scan: first session whose userAgent and ipAddress
both equal the incoming fingerprint. -/
def findSameDevice (ss : List Session) (ua ip : String) : Option Session :=
  ss.find? fun s => s.userAgent == ua && s.ipAddress == ip

/-- Picks the older of two sessions by lastActivity, keeping the first
argument on ties. -/
def olderSession (a b : Session) : Session :=
  if b.lastActivity < a.lastActivity then b else a

/-- The session selected by sorting on lastActivity ascending and taking
index 0: the least recently active session of the list. -/
def oldestByActivity : List Session → Option Session
  | [] => none
  | s :: rest => some (rest.foldl olderSession s)

/-- sessionService.createSession.  At the cap, a same-fingerprint session
is refreshed in place; otherwise the least-recently-active session is
invalidated and a fresh document is appended.  Under the cap a fresh
document is appended unconditionally.  Returns the new store and the
session handed back to the caller. -/
def createSession (store : List Session) (uid : Nat) (email ip ua : String)
    (now : Nat) (newId : String) : List Session × Session :=
  let active := getActiveSessions store uid now
  if MAX_ACTIVE_SESSIONS ≤ active.length then
    match findSameDevice active ua ip with
    | some same =>
        let upd := refreshSession same now
        (saveReplace store upd, upd)
    | none =>
        let store1 :=
          match oldestByActivity active with
          | some oldest => saveReplace store (invalidateSession oldest now)
          | none => store
        let fresh := mkNewSession uid email ip ua now newId
        (store1 ++ [fresh], fresh)
  else
    let fresh := mkNewSession uid email ip ua now newId
    (store ++ [fresh], fresh)

/-- sessionService.validateLoginAttempt: true when under the cap or when
an active session matches the incoming fingerprint. -/
def validateLoginAttempt (store : List Session) (uid : Nat) (ip ua : String)
    (now : Nat) : Bool :=
  let active := getActiveSessions store uid now
  decide (active.length < MAX_ACTIVE_SESSIONS) || (findSameDevice active ua ip).isSome

/-- sessionService.forceLogin: at the cap the least-recently-active
session is invalidated first, with no same-device check, and then
createSession runs on the result. -/
def forceLogin (store : List Session) (uid : Nat) (email ip ua : String)
    (now : Nat) (newId : String) : List Session × Session :=
  let active := getActiveSessions store uid now
  let store1 :=
    if MAX_ACTIVE_SESSIONS ≤ active.length then
      match oldestByActivity active with
      | some oldest => saveReplace store (invalidateSession oldest now)
      | none => store
    else store
  createSession store1 uid email ip ua now newId

/-- The deletion condition of Session.cleanupExpired: hard-expired, or
logged out longer ago than the retention window.  A null logoutTime never
matches the Mongo comparison. -/
def sweepable (now : Nat) (s : Session) : Bool :=
  decide (s.expiresAt < now) ||
    (!s.isActive &&
      (match s.logoutTime with
       | some lt => decide (lt < now - SESSION_RETENTION)
       | none => false))

/-- Session.cleanupExpired: deleteMany of the sweepable documents. -/
def cleanupExpired (store : List Session) (now : Nat) : List Session :=
  store.filter fun s => !sweepable now s

/-! ### User data model and credential operations (User model, auth controller) -/

/-- One user document, projected to the fields the core reads. -/
structure User where
  uid : Nat
  name : String
  email : String
  phone : String
  role : String
  password : String
  isActive : Bool
  isEmailVerified : Bool
  emailOTP : Option String
  emailOTPExpires : Option Nat
  isLocked : Bool
  lockUntil : Option Nat
  loginAttempts : Nat
  passwordChangedAt : Option Nat
deriving Repr, DecidableEq

/-- Failed-attempt threshold hard-coded in incLoginAttempts. -/
def MAX_LOGIN_ATTEMPTS : Nat := 5

/-- Lock cool-down hard-coded in incLoginAttempts: 2 hours in ms. -/
def LOCK_TIME : Nat := 2 * 60 * 60 * 1000

/-- OTP expiry window of createEmailOTP: default 10 minutes in ms. -/
def OTP_EXPIRY : Nat := 10 * 60 * 1000

/-- The sha256 digest of an OTP code, modelled as an injective tagging
function: only equality of digests is ever observed. -/
def hashOtp (code : String) : String := "sha256:" ++ code

/-- userSchema.methods.createEmailOTP: stores the digest of the code and
an expiry of now plus the window on the record. -/
def createEmailOTP (u : User) (code : String) (now : Nat) : User :=
  { u with emailOTP := some (hashOtp code),
           emailOTPExpires := some (now + OTP_EXPIRY) }

/-- userSchema.methods.verifyOTP: false when no digest or no expiry is
stored, when the expiry is strictly before now, or when the digest of the
candidate differs; true otherwise.  A pure predicate over the record. -/
def verifyOTP (u : User) (code : String) (now : Nat) : Bool :=
  match u.emailOTP, u.emailOTPExpires with
  | some stored, some expires =>
      if expires < now then false else hashOtp code == stored
  | _, _ => false

/-- The unconditional part of incLoginAttempts: increment the counter and
lock the account when the threshold is reached and it is not yet locked. -/
def incAttemptsCore (u : User) (now : Nat) : User :=
  let u1 := { u with loginAttempts := u.loginAttempts + 1 }
  if MAX_LOGIN_ATTEMPTS ≤ u.loginAttempts + 1 && !u.isLocked then
    { u1 with lockUntil := some (now + LOCK_TIME), isLocked := true }
  else u1

/-- userSchema.methods.incLoginAttempts: when a stored lockUntil has
already elapsed the counter restarts at 1 and lockUntil is unset (note:
isLocked is not touched by that branch); otherwise increment and
possibly lock. -/
def incLoginAttempts (u : User) (now : Nat) : User :=
  match u.lockUntil with
  | some lu =>
      if lu < now then { u with loginAttempts := 1, lockUntil := none }
      else incAttemptsCore u now
  | none => incAttemptsCore u now

/-- userSchema.methods.resetLoginAttempts: counter and lockUntil are
unset and isLocked cleared. -/
def resetLoginAttempts (u : User) : User :=
  { u with loginAttempts := 0, lockUntil := none, isLocked := false }

/-- userSchema.methods.changedPasswordAfter: true when the JWT iat (in
seconds) is strictly before the stored change stamp truncated to
seconds. -/
def changedPasswordAfter (u : User) (jwtIat : Nat) : Bool :=
  match u.passwordChangedAt with
  | some pca => decide (jwtIat < pca / 1000)
  | none => false

/-- Outcome of the credential phase of the login controller. -/
inductive LoginAuth where
  | ok
  | failure (msg : String)
deriving Repr, DecidableEq

/-- The credential phase of the login controller on a found user record:
the guard order of the source (isActive, isEmailVerified, isLocked,
password), with the side effect on the record returned alongside.
Password comparison models bcrypt.compare as equality with the stored
credential. -/
def loginCheck (u : User) (pw : String) (now : Nat) : LoginAuth × User :=
  if !u.isActive then (.failure "Account has been deactivated", u)
  else if !u.isEmailVerified then
    (.failure "Please verify your email before logging in.", u)
  else if u.isLocked then (.failure "Account is locked", u)
  else if !(pw == u.password) then
    (.failure "Invalid email or password", incLoginAttempts u now)
  else (.ok, resetLoginAttempts u)

/-- Outcome of sendRegistrationOTP. -/
inductive RegOtpOutcome where
  | conflict
  | otpSent (u : User)
deriving Repr, DecidableEq

/-- The placeholder record built by sendRegistrationOTP when no document
matched: inactive and unverified, with temporary phone and password. -/
def mkTempUser (newUid : Nat) (name email : String) : User :=
  { uid := newUid, name := name, email := email, phone := "temp",
    password := "temp", role := "user", isActive := false,
    isEmailVerified := false, emailOTP := none, emailOTPExpires := none,
    isLocked := false, lockUntil := none, loginAttempts := 0,
    passwordChangedAt := none }

/-- authController.sendRegistrationOTP: the first lookup matches any
document owning the email and raises the conflict; only when none exists
is the unverified-placeholder lookup reached (necessarily empty then), a
fresh placeholder built, the OTP attached, and the record saved.  Saving
an already-stored placeholder updates it in place by its id; saving the
fresh document inserts it (a fresh Mongo id never collides). -/
def sendRegistrationOTP (users : List User) (name email : String)
    (now : Nat) (code : String) (newUid : Nat) : RegOtpOutcome × List User :=
  if (users.find? fun u => u.email == email).isSome then (.conflict, users)
  else
    match users.find? (fun u => u.email == email && !u.isEmailVerified) with
    | some t =>
        let saved := createEmailOTP t code now
        (.otpSent saved, users.map fun u => if u.uid == saved.uid then saved else u)
    | none =>
        let saved := createEmailOTP (mkTempUser newUid name email) code now
        (.otpSent saved, users ++ [saved])

/-- authController.changePassword on the loaded record: requires the
current password, then stores the new one and stamps passwordChangedAt. -/
def changePassword (u : User) (currentPw newPw : String) (now : Nat) : Option User :=
  if currentPw == u.password then
    some { u with password := newPw, passwordChangedAt := some now }
  else none

/-! ### Tokens and the two authentication middlewares -/

/-- A decoded JWT: signature validity is carried as a flag, iat and exp
are in seconds as in the JWT claims. -/
structure Token where
  sigValid : Bool
  uid : Nat
  email : String
  role : String
  sessionId : Option String
  iat : Nat
  exp : Nat
deriving Repr, DecidableEq

/-- Result of an authentication middleware. -/
inductive AuthOutcome where
  | ok (uid : Nat) (sid : Option String)
  | authError (msg : String)
deriving Repr, DecidableEq

/-- The session lookup of authenticateWithSession: id, owner, isActive
and unexpired must all match. -/
def findSessionForAuth (sessions : List Session) (sid : String) (uid now : Nat) :
    Option Session :=
  sessions.find? fun s =>
    s.sessionId == sid && s.userId == uid && s.isActive && decide (now < s.expiresAt)

/-- User.findById over the store. -/
def findUserById (users : List User) (uid : Nat) : Option User :=
  users.find? fun u => u.uid == uid

/-- middleware/sessionAuth.js authenticateWithSession: verify the token
signature and expiry, require a sessionId claim, require a live session
document, require an existing active user.  Neither isLocked nor
lockUntil nor passwordChangedAt is consulted. -/
def authenticateWithSession (tok : Option Token) (sessions : List Session)
    (users : List User) (now : Nat) : AuthOutcome :=
  match tok with
  | none => .authError "Access denied. No token provided."
  | some tk =>
    if !tk.sigValid then .authError "Invalid token. Please login again."
    else if tk.exp ≤ now / 1000 then .authError "Token expired. Please login again."
    else
      match tk.sessionId with
      | none => .authError "Invalid token format. Please login again."
      | some sid =>
        match findSessionForAuth sessions sid tk.uid now with
        | none => .authError "Session expired or invalid. Please login again."
        | some _ =>
          match findUserById users tk.uid with
          | none => .authError "User account not found or inactive."
          | some u =>
            if !u.isActive then .authError "User account not found or inactive."
            else .ok tk.uid (some sid)

/-- middleware/auth.js authenticate: the plain JWT path, which does check
isLocked and changedPasswordAfter. -/
def authenticate (tok : Option Token) (users : List User) (now : Nat) : AuthOutcome :=
  match tok with
  | none => .authError "Access token is required"
  | some tk =>
    if !tk.sigValid then .authError "Invalid token"
    else if tk.exp ≤ now / 1000 then .authError "Token has expired"
    else
      match findUserById users tk.uid with
      | none => .authError "User no longer exists"
      | some u =>
        if !u.isActive then .authError "Account has been deactivated"
        else if u.isLocked then .authError "Account is temporarily locked"
        else if changedPasswordAfter u tk.iat then
          .authError "Password was changed recently. Please log in again"
        else .ok tk.uid none

/-! ### Sequences of login operations (for the session-cap invariant) -/

/-- A successful credential check followed by a session decision: either
the normal path (validateLoginAttempt, then createSession when allowed)
or the forced path. -/
inductive LoginOp where
  | normal (ip ua : String) (now : Nat) (newId : String)
  | force (ip ua : String) (now : Nat) (newId : String)
deriving Repr, DecidableEq

/-- The instant at which an operation runs. -/
def LoginOp.time : LoginOp → Nat
  | .normal _ _ now _ => now
  | .force _ _ now _ => now

/-- The id the operation would assign to a freshly created session. -/
def LoginOp.freshId : LoginOp → String
  | .normal _ _ _ i => i
  | .force _ _ _ i => i

/-- Effect of one login operation on the session store of a user.  A
normal login blocked by validateLoginAttempt leaves the store unchanged
(the controller returns the session-limit rejection). -/
def applyOp (store : List Session) (uid : Nat) (email : String) :
    LoginOp → List Session
  | .normal ip ua now newId =>
      if validateLoginAttempt store uid ip ua now then
        (createSession store uid email ip ua now newId).1
      else store
  | .force ip ua now newId => (forceLogin store uid email ip ua now newId).1

/-- Effect of a sequence of login operations, applied left to right. -/
def applyOps (store : List Session) (uid : Nat) (email : String) :
    List LoginOp → List Session
  | [] => store
  | op :: rest => applyOps (applyOp store uid email op) uid email rest

/-- Well-formedness of a sequence: times never decrease and every fresh
id is unused in the store at the moment the operation runs (the nanoid
uniqueness of the sessionId index). -/
def opsOk (store : List Session) (uid : Nat) (email : String) (t : Nat) :
    List LoginOp → Bool
  | [] => true
  | op :: rest =>
      decide (t ≤ op.time) && decide (op.freshId ∉ sessionIds store) &&
        opsOk (applyOp store uid email op) uid email op.time rest

/-- The instant after the last operation of a sequence. -/
def endTime (t : Nat) : List LoginOp → Nat
  | [] => t
  | op :: rest => endTime op.time rest

/-! ### Concrete records used by witnesses and counterexamples -/

/-- A concrete three-step login sequence used as witness data: two normal
logins from distinct devices, then a force-login from a third device. -/
def demoOps : List LoginOp :=
  [ .normal "ip1" "ua1" 100 "A", .normal "ip2" "ua2" 200 "B",
    .force "ip3" "ua3" 300 "C" ]

/-- A concrete active session of user 1 on device (UA1, IP1), least
recently active of the two demo sessions. -/
def demoSessA : Session :=
  { sessionId := "a", userId := 1, email := "u@x.com", isActive := true,
    isOnline := true, userAgent := "UA1", ipAddress := "IP1",
    lastActivity := 100, loginTime := 100, logoutTime := none,
    expiresAt := 1000000 }

/-- A concrete active session of user 1 on device (UA2, IP2), more
recently active. -/
def demoSessB : Session :=
  { sessionId := "b", userId := 1, email := "u@x.com", isActive := true,
    isOnline := true, userAgent := "UA2", ipAddress := "IP2",
    lastActivity := 200, loginTime := 200, logoutTime := none,
    expiresAt := 1000000 }

/-- A concrete fully registered active user record. -/
def baseUser : User :=
  { uid := 1, name := "n", email := "a@x.com", phone := "p", role := "user",
    password := "correct", isActive := true, isEmailVerified := true,
    emailOTP := none, emailOTPExpires := none, isLocked := false,
    lockUntil := none, loginAttempts := 0, passwordChangedAt := none }

/-- The user record after four consecutive wrong-password attempts. -/
def c2after4 : User :=
  (loginCheck (loginCheck (loginCheck (loginCheck baseUser
    "wrong" 1000).2 "wrong" 2000).2 "wrong" 3000).2 "wrong" 4000).2

/-- The user record after five consecutive wrong-password attempts. -/
def c2after5 : User := (loginCheck c2after4 "wrong" 5000).2

/-- The user record after a changePassword stamped at 5000000 ms. -/
def cpUserAfter : User :=
  { baseUser with password := "newpw", passwordChangedAt := some 5000000 }

/-- A session-bound token issued at second 1000 (ms 1000000), before the
password change at ms 5000000, expiring at second 999999. -/
def cpTok : Token :=
  { sigValid := true, uid := 1, email := "a@x.com", role := "user",
    sessionId := some "sid9", iat := 1000, exp := 999999 }

/-- The live session referenced by cpTok. -/
def cpSession : Session :=
  { sessionId := "sid9", userId := 1, email := "a@x.com", isActive := true,
    isOnline := true, userAgent := "UA1", ipAddress := "IP1",
    lastActivity := 1000000, loginTime := 1000000, logoutTime := none,
    expiresAt := 99999999 }

/-- A locked but active user record. -/
def lockedActiveUser : User :=
  { baseUser with isLocked := true, lockUntil := some 50 }

/-- The inactive unverified placeholder record owning a demo email. -/
def regPlaceholder : User := mkTempUser 7 "bob" "b@y.com"

/-! ### Supporting lemmas about the session store -/

theorem activePred_invalidate (uid now t : Nat) (s : Session) :
    activePred uid t (invalidateSession s now) = false := by
  simp [activePred, invalidateSession]

theorem activePred_refresh (uid now : Nat) (s : Session)
    (h : activePred uid now s = true) :
    activePred uid now (refreshSession s now) = true := by
  simp only [activePred, refreshSession, Bool.and_eq_true, decide_eq_true_eq] at h ⊢
  refine ⟨h.1, ?_⟩
  simp [SESSION_DURATION]

theorem activePred_mono (uid : Nat) {t t' : Nat} (h : t ≤ t') (s : Session)
    (hs : activePred uid t' s = true) : activePred uid t s = true := by
  simp only [activePred, Bool.and_eq_true, decide_eq_true_eq] at hs ⊢
  exact ⟨hs.1, lt_of_le_of_lt h hs.2⟩

theorem activePred_mkNewSession (uid : Nat) (email ip ua : String) (now : Nat)
    (newId : String) :
    activePred uid now (mkNewSession uid email ip ua now newId) = true := by
  simp [activePred, mkNewSession, SESSION_DURATION]

theorem sessionIds_saveReplace (store : List Session) (s : Session) :
    sessionIds (saveReplace store s) = sessionIds store := by
  unfold sessionIds saveReplace
  rw [List.map_map]
  refine List.map_congr_left ?_
  intro t _
  simp only [Function.comp_apply]
  by_cases h : t.sessionId = s.sessionId
  · simp [h]
  · simp [h]

theorem sessionIds_append (store l2 : List Session) :
    sessionIds (store ++ l2) = sessionIds store ++ sessionIds l2 :=
  List.map_append _ _ _

theorem getActiveSessions_append (store l2 : List Session) (uid now : Nat) :
    getActiveSessions (store ++ l2) uid now
      = getActiveSessions store uid now ++ getActiveSessions l2 uid now :=
  List.filter_append _ _

theorem sessionIds_getActive_nodup (store : List Session) (uid now : Nat)
    (hdup : (sessionIds store).Nodup) :
    (sessionIds (getActiveSessions store uid now)).Nodup :=
  List.Sublist.nodup (List.Sublist.map _ (List.filter_sublist store)) hdup

theorem mem_store_of_mem_active {store : List Session} {uid now : Nat} {s : Session}
    (h : s ∈ getActiveSessions store uid now) : s ∈ store :=
  (List.mem_filter.mp h).1

theorem activePred_of_mem_active {store : List Session} {uid now : Nat} {s : Session}
    (h : s ∈ getActiveSessions store uid now) : activePred uid now s = true :=
  (List.mem_filter.mp h).2

theorem olderSession_cases (a b : Session) :
    olderSession a b = a ∨ olderSession a b = b := by
  unfold olderSession
  split
  · exact Or.inr rfl
  · exact Or.inl rfl

theorem olderSession_left {a b : Session} (h : a.lastActivity < b.lastActivity) :
    olderSession a b = a := by
  unfold olderSession
  exact if_neg (Nat.lt_asymm h)

theorem foldl_olderSession_mem (s : Session) (rest : List Session) :
    rest.foldl olderSession s ∈ s :: rest := by
  induction rest generalizing s with
  | nil => simp [List.foldl]
  | cons b bs ih =>
    have h := ih (olderSession s b)
    simp only [List.foldl_cons]
    rcases List.mem_cons.mp h with h1 | h1
    · rcases olderSession_cases s b with h2 | h2
      · rw [h1, h2]; exact List.mem_cons_self _ _
      · rw [h1, h2]
        exact List.mem_cons_of_mem _ (List.mem_cons_self _ _)
    · exact List.mem_cons_of_mem _ (List.mem_cons_of_mem _ h1)

theorem oldestByActivity_mem {l : List Session} {x : Session}
    (h : oldestByActivity l = some x) : x ∈ l := by
  cases l with
  | nil => cases h
  | cons s rest =>
    simp only [oldestByActivity, Option.some.injEq] at h
    exact h ▸ foldl_olderSession_mem s rest

theorem oldestByActivity_eq_none {l : List Session} :
    oldestByActivity l = none ↔ l = [] := by
  cases l <;> simp [oldestByActivity]

theorem oldestByActivity_pair (a b : Session) :
    oldestByActivity [a, b] = some (olderSession a b) := rfl

theorem filter_map_drop {α : Type} (g : α → α) (p q : α → Bool) :
    ∀ l : List α,
      (∀ a ∈ l, (q a = true ∧ g a = a) ∨ (q a = false ∧ p (g a) = false)) →
      (l.map g).filter p = (l.filter p).filter q := by
  intro l
  induction l with
  | nil => intro _; rfl
  | cons a rest ih =>
    intro h
    have hrec := ih fun t ht => h t (List.mem_cons_of_mem a ht)
    simp only [List.map_cons, List.filter_cons]
    rcases h a (List.mem_cons_self a rest) with ⟨hq, hg⟩ | ⟨hq, hpg⟩
    · rw [hg]
      by_cases hpa : p a = true
      · simp only [hpa, if_true, List.filter_cons, hq, if_true, hrec]
      · simp only [Bool.not_eq_true] at hpa
        simp only [hpa, Bool.false_eq_true, if_false, hrec]
    · rw [hpg]
      simp only [Bool.false_eq_true, if_false]
      by_cases hpa : p a = true
      · simp only [hpa, if_true, List.filter_cons, hq, Bool.false_eq_true,
          if_false, hrec]
      · simp only [Bool.not_eq_true] at hpa
        simp only [hpa, Bool.false_eq_true, if_false, hrec]

theorem filter_map_keep {α : Type} (g : α → α) (p : α → Bool) :
    ∀ l : List α,
      (∀ a ∈ l, p (g a) = p a) →
      (l.map g).filter p = (l.filter p).map g := by
  intro l
  induction l with
  | nil => intro _; rfl
  | cons a rest ih =>
    intro h
    have hrec := ih fun t ht => h t (List.mem_cons_of_mem a ht)
    have ha := h a (List.mem_cons_self a rest)
    simp only [List.map_cons, List.filter_cons, ha]
    by_cases hpa : p a = true
    · simp only [hpa, if_true, List.map_cons, hrec]
    · simp only [Bool.not_eq_true] at hpa
      simp only [hpa, Bool.false_eq_true, if_false, hrec]

theorem getActiveSessions_saveReplace_inval (store : List Session) (uid now : Nat)
    (x : Session) :
    getActiveSessions (saveReplace store (invalidateSession x now)) uid now
      = (getActiveSessions store uid now).filter
          fun t => !(t.sessionId == x.sessionId) := by
  unfold getActiveSessions saveReplace
  refine filter_map_drop _ _ _ store ?_
  intro t ht
  by_cases hid : t.sessionId = x.sessionId
  · refine Or.inr ⟨by simp [hid], ?_⟩
    have hgt : (if (t.sessionId == (invalidateSession x now).sessionId) = true
        then invalidateSession x now else t) = invalidateSession x now := by
      simp [invalidateSession, hid]
    rw [hgt, activePred_invalidate]
  · refine Or.inl ⟨by simp [hid], ?_⟩
    simp [invalidateSession, hid]

theorem getActiveSessions_saveReplace_refresh (store : List Session) (uid now : Nat)
    (m : Session)
    (huniq : ∀ t ∈ store, t.sessionId = m.sessionId → t = m)
    (hm : activePred uid now m = true) :
    getActiveSessions (saveReplace store (refreshSession m now)) uid now
      = (getActiveSessions store uid now).map
          fun t => if t.sessionId == (refreshSession m now).sessionId
                   then refreshSession m now else t := by
  unfold getActiveSessions saveReplace
  refine filter_map_keep _ _ store ?_
  intro t ht
  by_cases hid : t.sessionId = m.sessionId
  · have htm : t = m := huniq t ht hid
    have hgt : (if (t.sessionId == (refreshSession m now).sessionId) = true
        then refreshSession m now else t) = refreshSession m now := by
      simp [refreshSession, hid]
    rw [hgt, activePred_refresh uid now m hm, htm, hm]
  · have hgt : (if (t.sessionId == (refreshSession m now).sessionId) = true
        then refreshSession m now else t) = t := by
      simp [refreshSession, hid]
    rw [hgt]

theorem length_filter_ne_id (l : List Session) (x : Session)
    (hdup : (sessionIds l).Nodup) (hx : x ∈ l) :
    (l.filter fun t => !(t.sessionId == x.sessionId)).length + 1 = l.length := by
  induction l with
  | nil => cases hx
  | cons a rest ih =>
    unfold sessionIds at hdup
    simp only [List.map_cons, List.nodup_cons] at hdup
    obtain ⟨hnotin, hdup'⟩ := hdup
    simp only [List.filter_cons]
    by_cases hid : a.sessionId = x.sessionId
    · have hfilter : rest.filter (fun t => !(t.sessionId == x.sessionId)) = rest := by
        refine List.filter_eq_self.mpr ?_
        intro t ht
        have : t.sessionId ≠ x.sessionId := by
          intro hc
          exact hnotin (hid ▸ hc ▸ List.mem_map_of_mem Session.sessionId ht)
        simp [this]
      simp [hid, hfilter]
    · have hx' : x ∈ rest := by
        rcases List.mem_cons.mp hx with h1 | h1
        · exact absurd (h1 ▸ rfl) hid
        · exact h1
      have hrec := ih hdup' hx'
      simp only [List.length_cons]
      simp [hid]
      omega

theorem countActive_saveReplace_inval (store : List Session) (uid now : Nat)
    (x : Session) (hdup : (sessionIds store).Nodup)
    (hx : x ∈ getActiveSessions store uid now) :
    countActive (saveReplace store (invalidateSession x now)) uid now + 1
      = countActive store uid now := by
  unfold countActive
  rw [getActiveSessions_saveReplace_inval store uid now x]
  exact length_filter_ne_id (getActiveSessions store uid now) x
    (sessionIds_getActive_nodup store uid now hdup) hx

theorem countActive_saveReplace_refresh (store : List Session) (uid now : Nat)
    (m : Session) (hdup : (sessionIds store).Nodup)
    (hm : m ∈ getActiveSessions store uid now) :
    countActive (saveReplace store (refreshSession m now)) uid now
      = countActive store uid now := by
  unfold countActive
  rw [getActiveSessions_saveReplace_refresh store uid now m
    (fun t ht hid => List.inj_on_of_nodup_map hdup ht (mem_store_of_mem_active hm) hid)
    (activePred_of_mem_active hm)]
  exact List.length_map _ _

theorem countActive_mono (store : List Session) (uid : Nat) {t t' : Nat}
    (h : t ≤ t') : countActive store uid t' ≤ countActive store uid t := by
  unfold countActive getActiveSessions
  induction store with
  | nil => exact Nat.le_refl _
  | cons a rest ih =>
    simp only [List.filter_cons]
    by_cases h1 : activePred uid t' a = true
    · have h2 : activePred uid t a = true := activePred_mono uid h a h1
      simp only [h1, if_true, h2, List.length_cons]
      omega
    · simp only [Bool.not_eq_true] at h1
      simp only [h1, Bool.false_eq_true, if_false]
      by_cases h2 : activePred uid t a = true
      · simp only [h2, if_true, List.length_cons]
        omega
      · simp only [Bool.not_eq_true] at h2
        simp only [h2, Bool.false_eq_true, if_false]
        exact ih

theorem countActive_append_new (store : List Session) (uid : Nat)
    (email ip ua : String) (now : Nat) (newId : String) :
    countActive (store ++ [mkNewSession uid email ip ua now newId]) uid now
      = countActive store uid now + 1 := by
  unfold countActive
  rw [getActiveSessions_append]
  have : getActiveSessions [mkNewSession uid email ip ua now newId] uid now
      = [mkNewSession uid email ip ua now newId] := by
    unfold getActiveSessions
    simp [List.filter_cons, activePred_mkNewSession]
  rw [this, List.length_append]
  rfl

/-- At the cap bound, every branch of createSession keeps the count of
active unexpired sessions of the user at or below the bound. -/
theorem countActive_createSession_le (store : List Session) (uid : Nat)
    (email ip ua : String) (now : Nat) (newId : String)
    (hdup : (sessionIds store).Nodup)
    (hcnt : countActive store uid now ≤ MAX_ACTIVE_SESSIONS) :
    countActive (createSession store uid email ip ua now newId).1 uid now
      ≤ MAX_ACTIVE_SESSIONS := by
  unfold createSession
  simp only
  by_cases hcap : MAX_ACTIVE_SESSIONS ≤ (getActiveSessions store uid now).length
  · rw [if_pos hcap]
    cases hsd : findSameDevice (getActiveSessions store uid now) ua ip with
    | some m =>
      simp only
      have hm : m ∈ getActiveSessions store uid now := List.mem_of_find?_eq_some hsd
      rw [countActive_saveReplace_refresh store uid now m hdup hm]
      exact hcnt
    | none =>
      simp only
      cases hold : oldestByActivity (getActiveSessions store uid now) with
      | some oldest =>
        simp only
        have hx : oldest ∈ getActiveSessions store uid now := oldestByActivity_mem hold
        rw [countActive_append_new]
        have := countActive_saveReplace_inval store uid now oldest hdup hx
        omega
      | none =>
        have : getActiveSessions store uid now = [] := oldestByActivity_eq_none.mp hold
        rw [this] at hcap
        simp [MAX_ACTIVE_SESSIONS] at hcap
  · rw [if_neg hcap]
    rw [countActive_append_new]
    unfold countActive at hcnt ⊢
    omega

/-- forceLogin also keeps the count at or below the bound. -/
theorem countActive_forceLogin_le (store : List Session) (uid : Nat)
    (email ip ua : String) (now : Nat) (newId : String)
    (hdup : (sessionIds store).Nodup)
    (hcnt : countActive store uid now ≤ MAX_ACTIVE_SESSIONS) :
    countActive (forceLogin store uid email ip ua now newId).1 uid now
      ≤ MAX_ACTIVE_SESSIONS := by
  unfold forceLogin
  simp only
  by_cases hcap : MAX_ACTIVE_SESSIONS ≤ (getActiveSessions store uid now).length
  · rw [if_pos hcap]
    cases hold : oldestByActivity (getActiveSessions store uid now) with
    | some oldest =>
      simp only
      have hx : oldest ∈ getActiveSessions store uid now := oldestByActivity_mem hold
      have h1 := countActive_saveReplace_inval store uid now oldest hdup hx
      refine countActive_createSession_le _ uid email ip ua now newId ?_ ?_
      · rw [sessionIds_saveReplace]; exact hdup
      · omega
    | none =>
      have : getActiveSessions store uid now = [] := oldestByActivity_eq_none.mp hold
      rw [this] at hcap
      simp [MAX_ACTIVE_SESSIONS] at hcap
  · rw [if_neg hcap]
    exact countActive_createSession_le store uid email ip ua now newId hdup hcnt

theorem sessionIds_createSession (store : List Session) (uid : Nat)
    (email ip ua : String) (now : Nat) (newId : String) :
    sessionIds (createSession store uid email ip ua now newId).1 = sessionIds store
    ∨ sessionIds (createSession store uid email ip ua now newId).1
        = sessionIds store ++ [newId] := by
  unfold createSession
  simp only
  by_cases hcap : MAX_ACTIVE_SESSIONS ≤ (getActiveSessions store uid now).length
  · rw [if_pos hcap]
    cases hsd : findSameDevice (getActiveSessions store uid now) ua ip with
    | some m =>
      exact Or.inl (sessionIds_saveReplace store _)
    | none =>
      refine Or.inr ?_
      cases hold : oldestByActivity (getActiveSessions store uid now) with
      | some oldest =>
        simp only
        rw [sessionIds_append, sessionIds_saveReplace]
        rfl
      | none =>
        simp only
        rw [sessionIds_append]
        rfl
  · rw [if_neg hcap]
    refine Or.inr ?_
    rw [sessionIds_append]
    rfl

theorem sessionIds_forceLogin (store : List Session) (uid : Nat)
    (email ip ua : String) (now : Nat) (newId : String) :
    sessionIds (forceLogin store uid email ip ua now newId).1 = sessionIds store
    ∨ sessionIds (forceLogin store uid email ip ua now newId).1
        = sessionIds store ++ [newId] := by
  unfold forceLogin
  simp only
  by_cases hcap : MAX_ACTIVE_SESSIONS ≤ (getActiveSessions store uid now).length
  · rw [if_pos hcap]
    cases hold : oldestByActivity (getActiveSessions store uid now) with
    | some oldest =>
      simp only
      rcases sessionIds_createSession (saveReplace store (invalidateSession oldest now))
          uid email ip ua now newId with h | h
      · rw [h, sessionIds_saveReplace]; exact Or.inl rfl
      · rw [h, sessionIds_saveReplace]; exact Or.inr rfl
    | none =>
      exact sessionIds_createSession store uid email ip ua now newId
  · rw [if_neg hcap]
    exact sessionIds_createSession store uid email ip ua now newId

theorem sessionIds_applyOp (store : List Session) (uid : Nat) (email : String)
    (op : LoginOp) :
    sessionIds (applyOp store uid email op) = sessionIds store
    ∨ sessionIds (applyOp store uid email op)
        = sessionIds store ++ [op.freshId] := by
  cases op with
  | normal ip ua now newId =>
    simp only [applyOp, LoginOp.freshId]
    by_cases hv : validateLoginAttempt store uid ip ua now = true
    · rw [if_pos hv]
      exact sessionIds_createSession store uid email ip ua now newId
    · rw [if_neg hv]
      exact Or.inl rfl
  | force ip ua now newId =>
    simp only [applyOp, LoginOp.freshId]
    exact sessionIds_forceLogin store uid email ip ua now newId

theorem nodup_applyOp (store : List Session) (uid : Nat) (email : String)
    (op : LoginOp) (hdup : (sessionIds store).Nodup)
    (hfresh : op.freshId ∉ sessionIds store) :
    (sessionIds (applyOp store uid email op)).Nodup := by
  rcases sessionIds_applyOp store uid email op with h | h
  · rw [h]; exact hdup
  · rw [h]
    rw [List.nodup_append]
    refine ⟨hdup, List.nodup_singleton _, ?_⟩
    intro a ha hb
    rw [List.mem_singleton] at hb
    exact hfresh (hb ▸ ha)

/-- One login or force-login step preserves the session-cap bound at the
instant it runs. -/
theorem countActive_applyOp_le (store : List Session) (uid : Nat) (email : String)
    (op : LoginOp) (hdup : (sessionIds store).Nodup)
    (hcnt : countActive store uid op.time ≤ MAX_ACTIVE_SESSIONS) :
    countActive (applyOp store uid email op) uid op.time ≤ MAX_ACTIVE_SESSIONS := by
  cases op with
  | normal ip ua now newId =>
    simp only [applyOp, LoginOp.time] at hcnt ⊢
    by_cases hv : validateLoginAttempt store uid ip ua now = true
    · rw [if_pos hv]
      exact countActive_createSession_le store uid email ip ua now newId hdup hcnt
    · rw [if_neg hv]
      exact hcnt
  | force ip ua now newId =>
    simp only [applyOp, LoginOp.time] at hcnt ⊢
    exact countActive_forceLogin_le store uid email ip ua now newId hdup hcnt

theorem olderSession_right {a b : Session} (h : a.lastActivity < b.lastActivity) :
    olderSession b a = a := by
  unfold olderSession
  exact if_pos h

theorem list_two_of_mem_mem {α : Type} {l : List α} {a b : α}
    (hlen : l.length = 2) (ha : a ∈ l) (hb : b ∈ l) (hab : a ≠ b) :
    l = [a, b] ∨ l = [b, a] := by
  cases l with
  | nil => simp at hlen
  | cons x t =>
    cases t with
    | nil => simp at hlen
    | cons y t2 =>
      cases t2 with
      | cons z t3 =>
        exfalso
        simp only [List.length_cons] at hlen
        omega
      | nil =>
        simp only [List.mem_cons, List.not_mem_nil, or_false] at ha hb
        rcases ha with rfl | rfl
        · rcases hb with rfl | rfl
          · exact absurd rfl hab
          · exact Or.inl rfl
        · rcases hb with rfl | rfl
          · exact Or.inr rfl
          · exact absurd rfl hab

/-- Core shape of a force-login when the user holds exactly two active
unexpired sessions with strictly ordered lastActivity.  The two sessions
are given only as members of the active set, in either list order: the
one with the smaller lastActivity is invalidated and a fresh document
appended. -/
theorem forceLogin_two_active (store : List Session) (uid : Nat)
    (email ip ua : String) (now : Nat) (newId : String) (a b : Session)
    (hma : a ∈ getActiveSessions store uid now)
    (hmb : b ∈ getActiveSessions store uid now)
    (hlen : (getActiveSessions store uid now).length = 2)
    (hdup : (sessionIds store).Nodup)
    (hlt : a.lastActivity < b.lastActivity) :
    (forceLogin store uid email ip ua now newId).1
      = saveReplace store (invalidateSession a now)
          ++ [mkNewSession uid email ip ua now newId]
    ∧ (forceLogin store uid email ip ua now newId).2
      = mkNewSession uid email ip ua now newId := by
  have hastore : a ∈ store := mem_store_of_mem_active hma
  have hbstore : b ∈ store := mem_store_of_mem_active hmb
  have hab : a ≠ b := fun h => absurd (h ▸ hlt) (lt_irrefl _)
  have hidab : a.sessionId ≠ b.sessionId := by
    intro h
    exact hab (List.inj_on_of_nodup_map hdup hastore hbstore h)
  have hcap : MAX_ACTIVE_SESSIONS ≤ (getActiveSessions store uid now).length := by
    rw [hlen]
    exact Nat.le_refl _
  have hact2 := list_two_of_mem_mem hlen hma hmb hab
  have holdest : oldestByActivity (getActiveSessions store uid now) = some a := by
    rcases hact2 with h | h
    · rw [h, oldestByActivity_pair, olderSession_left hlt]
    · rw [h, oldestByActivity_pair, olderSession_right hlt]
  have hactive1 : getActiveSessions (saveReplace store (invalidateSession a now))
      uid now = [b] := by
    rw [getActiveSessions_saveReplace_inval store uid now a]
    rcases hact2 with h | h
    · rw [h]
      simp [List.filter_cons, hidab.symm]
    · rw [h]
      simp [List.filter_cons, hidab.symm]
  unfold forceLogin
  simp only
  rw [if_pos hcap, holdest]
  simp only
  unfold createSession
  simp only
  rw [hactive1]
  rw [if_neg (by simp [MAX_ACTIVE_SESSIONS])]
  exact ⟨rfl, rfl⟩

/-- Membership consequences of the force-login eviction: the older
session survives only as its invalidated copy, the newer survives
unchanged and active, the fresh document is appended. -/
theorem forceLogin_evict_members (store : List Session) (uid : Nat)
    (email ip ua : String) (now : Nat) (newId : String) (a b : Session)
    (hma : a ∈ getActiveSessions store uid now)
    (hmb : b ∈ getActiveSessions store uid now)
    (hlen : (getActiveSessions store uid now).length = 2)
    (hdup : (sessionIds store).Nodup)
    (hfresh : newId ∉ sessionIds store)
    (hlt : a.lastActivity < b.lastActivity) :
    invalidateSession a now ∈ (forceLogin store uid email ip ua now newId).1
    ∧ a ∉ (forceLogin store uid email ip ua now newId).1
    ∧ b ∈ (forceLogin store uid email ip ua now newId).1
    ∧ b.isActive = true
    ∧ mkNewSession uid email ip ua now newId
        ∈ (forceLogin store uid email ip ua now newId).1 := by
  obtain ⟨hres, -⟩ :=
    forceLogin_two_active store uid email ip ua now newId a b hma hmb hlen hdup hlt
  have hastore : a ∈ store := mem_store_of_mem_active hma
  have hbstore : b ∈ store := mem_store_of_mem_active hmb
  have hab : a ≠ b := fun h => absurd (h ▸ hlt) (lt_irrefl _)
  have hidab : b.sessionId ≠ a.sessionId := by
    intro h
    exact hab (List.inj_on_of_nodup_map hdup hastore hbstore h.symm)
  have haact : a.isActive = true := by
    have := activePred_of_mem_active hma
    simp only [activePred, Bool.and_eq_true] at this
    exact this.1.2
  have hbact : b.isActive = true := by
    have := activePred_of_mem_active hmb
    simp only [activePred, Bool.and_eq_true] at this
    exact this.1.2
  rw [hres]
  refine ⟨?_, ?_, ?_, hbact, ?_⟩
  · refine List.mem_append_left _ ?_
    unfold saveReplace
    refine List.mem_map.mpr ⟨a, hastore, ?_⟩
    simp [invalidateSession]
  · intro hmem
    rcases List.mem_append.mp hmem with h1 | h1
    · obtain ⟨t, htstore, hteq⟩ := List.mem_map.mp h1
      by_cases hid : t.sessionId = (invalidateSession a now).sessionId
      · rw [if_pos (by simp [hid])] at hteq
        have : (invalidateSession a now).isActive = a.isActive := by rw [hteq]
        simp [invalidateSession, haact] at this
      · rw [if_neg (by simp [hid])] at hteq
        exact hid (by rw [hteq]; rfl)
    · rw [List.mem_singleton] at h1
      have : a.sessionId = newId := by rw [h1]; rfl
      exact hfresh (this ▸ List.mem_map_of_mem Session.sessionId hastore)
  · refine List.mem_append_left _ ?_
    unfold saveReplace
    refine List.mem_map.mpr ⟨b, hbstore, ?_⟩
    rw [if_neg ?_]
    simp [invalidateSession, hidab]
  · exact List.mem_append_right _ (List.mem_singleton.mpr rfl)

/-! ### C1: the two-session cap is preserved by login sequences -/

/-- Claim C1: for every user and every sequence of successful login,
same-device login, and force-login operations performed one after another
(times never decreasing, fresh session ids unused, starting from a state
satisfying the bound and with unique session ids), the number of that
user's sessions with isActive = true and expiresAt strictly in the future
never exceeds 2, at the end of the sequence and at every later instant. -/
theorem session_cap_invariant (uid : Nat) (email : String) :
    ∀ (ops : List LoginOp) (store : List Session) (t : Nat),
      (sessionIds store).Nodup →
      countActive store uid t ≤ 2 →
      opsOk store uid email t ops = true →
      ∀ t', endTime t ops ≤ t' →
        countActive (applyOps store uid email ops) uid t' ≤ 2 := by
  intro ops
  induction ops with
  | nil =>
    intro store t hdup hcnt hok t' ht
    exact le_trans (countActive_mono store uid ht) hcnt
  | cons op rest ih =>
    intro store t hdup hcnt hok t' ht
    simp only [opsOk, Bool.and_eq_true, decide_eq_true_eq] at hok
    obtain ⟨⟨hts, hfresh⟩, hrest⟩ := hok
    have h1 : countActive store uid op.time ≤ 2 :=
      le_trans (countActive_mono store uid hts) hcnt
    have h2 := countActive_applyOp_le store uid email op hdup h1
    have h3 := nodup_applyOp store uid email op hdup hfresh
    exact ih (applyOp store uid email op) op.time h3 h2 hrest t' ht

/-- Witness for C1 on a concrete run from the empty store. -/
theorem session_cap_invariant_witness :
    countActive (applyOps [] 1 "u@x.com" demoOps) 1 300 ≤ 2 :=
  session_cap_invariant 1 "u@x.com" demoOps [] 0 (by decide) (by decide)
    (by decide) 300 (by decide)

/-! ### C5: force-login evicts the least recently active session -/

/-- Claim C5: when a force-login occurs for a user with 2 active
unexpired sessions whose fingerprints both differ from the incoming one,
the session with the smallest lastActivity is invalidated (isActive and
isOnline false, logoutTime stamped now) and a new session is created,
while the more recently active session is left in the store still
active.  The two sessions are given only as members of the active set,
so the statement covers either document order. -/
theorem force_login_evicts_least_recently_active (store : List Session)
    (uid : Nat) (email ip ua : String) (now : Nat) (newId : String)
    (a b : Session)
    (hma : a ∈ getActiveSessions store uid now)
    (hmb : b ∈ getActiveSessions store uid now)
    (hlen : (getActiveSessions store uid now).length = 2)
    (hdup : (sessionIds store).Nodup)
    (hfresh : newId ∉ sessionIds store)
    (hlt : a.lastActivity < b.lastActivity)
    (hda : ¬(a.userAgent = ua ∧ a.ipAddress = ip))
    (hdb : ¬(b.userAgent = ua ∧ b.ipAddress = ip)) :
    invalidateSession a now ∈ (forceLogin store uid email ip ua now newId).1
    ∧ a ∉ (forceLogin store uid email ip ua now newId).1
    ∧ b ∈ (forceLogin store uid email ip ua now newId).1
    ∧ b.isActive = true
    ∧ mkNewSession uid email ip ua now newId
        ∈ (forceLogin store uid email ip ua now newId).1 :=
  forceLogin_evict_members store uid email ip ua now newId a b hma hmb hlen
    hdup hfresh hlt

/-- Witness for C5 at a concrete two-session store. -/
theorem force_login_evicts_least_recently_active_witness :
    invalidateSession demoSessA 300
        ∈ (forceLogin [demoSessA, demoSessB] 1 "u@x.com" "IP3" "UA3" 300 "c").1
    ∧ demoSessA ∉ (forceLogin [demoSessA, demoSessB] 1 "u@x.com" "IP3" "UA3" 300 "c").1
    ∧ demoSessB ∈ (forceLogin [demoSessA, demoSessB] 1 "u@x.com" "IP3" "UA3" 300 "c").1
    ∧ demoSessB.isActive = true
    ∧ mkNewSession 1 "u@x.com" "IP3" "UA3" 300 "c"
        ∈ (forceLogin [demoSessA, demoSessB] 1 "u@x.com" "IP3" "UA3" 300 "c").1 :=
  force_login_evicts_least_recently_active [demoSessA, demoSessB] 1 "u@x.com"
    "IP3" "UA3" 300 "c" demoSessA demoSessB (by decide) (by decide) (by decide)
    (by decide) (by decide) (by decide) (by decide) (by decide)

/-! ### C4: same-device reuse holds for normal logins only -/

/-- Counterexample to claim C4: a forced login at the cap from a device
whose fingerprint exactly matches the more recent session does not
refresh it in place; the code invalidates the oldest session and appends
a brand-new record, so the set of session ids grows. -/
theorem force_login_same_device_counterexample :
    countActive [demoSessA, demoSessB] 1 300 = 2
    ∧ demoSessB.userAgent = "UA2" ∧ demoSessB.ipAddress = "IP2"
    ∧ sessionIds (forceLogin [demoSessA, demoSessB] 1 "u@x.com"
        "IP2" "UA2" 300 "c").1 = ["a", "b", "c"]
    ∧ sessionIds (forceLogin [demoSessA, demoSessB] 1 "u@x.com"
        "IP2" "UA2" 300 "c").1 ≠ sessionIds [demoSessA, demoSessB]
    ∧ (forceLogin [demoSessA, demoSessB] 1 "u@x.com" "IP2" "UA2" 300 "c").2.sessionId
        = "c" := by
  decide

/-- Claim C4 amended: only a non-forced login at the cap with a matching
fingerprint refreshes the matching session in place and leaves the set of
session ids unchanged; a forced login with two active unexpired sessions
always invalidates the least recently active one and appends a brand-new
record with the fresh id, even when a session matches the incoming
fingerprint. -/
theorem same_device_reuse_amended :
    (∀ (store : List Session) (uid : Nat) (email ip ua : String) (now : Nat)
       (newId : String) (m : Session),
       MAX_ACTIVE_SESSIONS ≤ (getActiveSessions store uid now).length →
       findSameDevice (getActiveSessions store uid now) ua ip = some m →
       sessionIds (createSession store uid email ip ua now newId).1
           = sessionIds store
       ∧ (createSession store uid email ip ua now newId).2
           = refreshSession m now)
    ∧ (∀ (store : List Session) (uid : Nat) (email ip ua : String) (now : Nat)
       (newId : String) (a b : Session),
       a ∈ getActiveSessions store uid now →
       b ∈ getActiveSessions store uid now →
       (getActiveSessions store uid now).length = 2 →
       (sessionIds store).Nodup →
       newId ∉ sessionIds store →
       a.lastActivity < b.lastActivity →
       sessionIds (forceLogin store uid email ip ua now newId).1
         = sessionIds store ++ [newId]
       ∧ invalidateSession a now ∈ (forceLogin store uid email ip ua now newId).1
       ∧ a ∉ (forceLogin store uid email ip ua now newId).1
       ∧ b ∈ (forceLogin store uid email ip ua now newId).1
       ∧ mkNewSession uid email ip ua now newId
           ∈ (forceLogin store uid email ip ua now newId).1) := by
  constructor
  · intro store uid email ip ua now newId m hcap hsd
    unfold createSession
    simp only
    rw [if_pos hcap, hsd]
    exact ⟨sessionIds_saveReplace store _, rfl⟩
  · intro store uid email ip ua now newId a b hma hmb hlen hdup hfresh hlt
    obtain ⟨hres, -⟩ :=
      forceLogin_two_active store uid email ip ua now newId a b hma hmb hlen hdup hlt
    obtain ⟨h1, h2, h3, -, h5⟩ :=
      forceLogin_evict_members store uid email ip ua now newId a b hma hmb hlen
        hdup hfresh hlt
    refine ⟨?_, h1, h2, h3, h5⟩
    rw [hres, sessionIds_append, sessionIds_saveReplace]
    rfl

/-- Witness for the amended C4 at concrete stores. -/
theorem same_device_reuse_amended_witness :
    (sessionIds (createSession [demoSessA, demoSessB] 1 "u@x.com"
        "IP2" "UA2" 300 "z").1 = sessionIds [demoSessA, demoSessB]
     ∧ (createSession [demoSessA, demoSessB] 1 "u@x.com" "IP2" "UA2" 300 "z").2
         = refreshSession demoSessB 300)
    ∧ (sessionIds (forceLogin [demoSessA, demoSessB] 1 "u@x.com"
        "IP3" "UA3" 300 "c").1 = sessionIds [demoSessA, demoSessB] ++ ["c"]
       ∧ invalidateSession demoSessA 300
           ∈ (forceLogin [demoSessA, demoSessB] 1 "u@x.com" "IP3" "UA3" 300 "c").1
       ∧ demoSessA ∉ (forceLogin [demoSessA, demoSessB] 1 "u@x.com" "IP3" "UA3" 300 "c").1
       ∧ demoSessB ∈ (forceLogin [demoSessA, demoSessB] 1 "u@x.com" "IP3" "UA3" 300 "c").1
       ∧ mkNewSession 1 "u@x.com" "IP3" "UA3" 300 "c"
           ∈ (forceLogin [demoSessA, demoSessB] 1 "u@x.com" "IP3" "UA3" 300 "c").1) :=
  ⟨same_device_reuse_amended.1 [demoSessA, demoSessB] 1 "u@x.com" "IP2" "UA2"
      300 "z" demoSessB (by decide) (by decide),
   same_device_reuse_amended.2 [demoSessA, demoSessB] 1 "u@x.com" "IP3" "UA3"
      300 "c" demoSessA demoSessB (by decide) (by decide) (by decide) (by decide)
      (by decide) (by decide)⟩

/-! ### C10: under the cap, a matching fingerprint still creates a new record -/

/-- Claim C10: the same-device reuse rule applies only at the cap.  A
user with a single active unexpired session whose fingerprint exactly
matches the incoming one still gets a brand-new session record with the
fresh id appended, the existing store untouched, and ends up holding two
active sessions with identical fingerprints. -/
theorem under_cap_same_device_creates_new (store : List Session) (uid : Nat)
    (email ip ua : String) (now : Nat) (newId : String) (s0 : Session)
    (hact : getActiveSessions store uid now = [s0])
    (hua : s0.userAgent = ua) (hip : s0.ipAddress = ip)
    (hfresh : newId ∉ sessionIds store) :
    (createSession store uid email ip ua now newId).1
      = store ++ [mkNewSession uid email ip ua now newId]
    ∧ (createSession store uid email ip ua now newId).2
      = mkNewSession uid email ip ua now newId
    ∧ countActive (createSession store uid email ip ua now newId).1 uid now = 2
    ∧ s0.sessionId ≠ newId := by
  have hcap : ¬ MAX_ACTIVE_SESSIONS ≤ (getActiveSessions store uid now).length := by
    rw [hact]
    simp [MAX_ACTIVE_SESSIONS]
  have hres : (createSession store uid email ip ua now newId).1
      = store ++ [mkNewSession uid email ip ua now newId] := by
    unfold createSession
    simp only
    rw [if_neg hcap]
  refine ⟨hres, ?_, ?_, ?_⟩
  · unfold createSession
    simp only
    rw [if_neg hcap]
  · rw [hres, countActive_append_new]
    unfold countActive
    rw [hact]
    rfl
  · intro h
    have hs0 : s0 ∈ store := mem_store_of_mem_active (by rw [hact]; simp)
    exact hfresh (h ▸ List.mem_map_of_mem Session.sessionId hs0)

/-- Witness for C10: one active session on (UA1, IP1), login from the
identical fingerprint. -/
theorem under_cap_same_device_creates_new_witness :
    (createSession [demoSessA] 1 "u@x.com" "IP1" "UA1" 300 "c").1
      = [demoSessA] ++ [mkNewSession 1 "u@x.com" "IP1" "UA1" 300 "c"]
    ∧ (createSession [demoSessA] 1 "u@x.com" "IP1" "UA1" 300 "c").2
      = mkNewSession 1 "u@x.com" "IP1" "UA1" 300 "c"
    ∧ countActive (createSession [demoSessA] 1 "u@x.com" "IP1" "UA1" 300 "c").1 1 300 = 2
    ∧ demoSessA.sessionId ≠ "c" :=
  under_cap_same_device_creates_new [demoSessA] 1 "u@x.com" "IP1" "UA1" 300 "c"
    demoSessA (by decide) (by decide) (by decide) (by decide)

/-! ### C8: the sweep deletes exactly the stale sessions -/

theorem sweepable_iff (now : Nat) (s : Session) :
    sweepable now s = true ↔
      (s.expiresAt < now ∨
        (s.isActive = false ∧
          ∃ lt, s.logoutTime = some lt ∧ lt < now - SESSION_RETENTION)) := by
  cases hl : s.logoutTime with
  | none => simp [sweepable, hl]
  | some lt =>
    cases ha : s.isActive with
    | false => simp [sweepable, hl, ha]
    | true => simp [sweepable, hl, ha]

/-- Claim C8: cleanupExpired permanently deletes exactly the sessions
with expiresAt strictly before now, or inactive with a logoutTime older
than the 7-day retention window; every other session survives verbatim
in order, and an immediately repeated sweep deletes nothing. -/
theorem sweep_exact_and_idempotent :
    ∀ (store : List Session) (now : Nat),
      (∀ s, s ∈ cleanupExpired store now ↔
        s ∈ store ∧
          ¬(s.expiresAt < now ∨
            (s.isActive = false ∧
              ∃ lt, s.logoutTime = some lt ∧ lt < now - SESSION_RETENTION)))
      ∧ List.Sublist (cleanupExpired store now) store
      ∧ cleanupExpired (cleanupExpired store now) now = cleanupExpired store now := by
  intro store now
  refine ⟨?_, ?_, ?_⟩
  · intro s
    unfold cleanupExpired
    rw [List.mem_filter]
    constructor
    · rintro ⟨hmem, hkeep⟩
      refine ⟨hmem, ?_⟩
      intro hc
      rw [(sweepable_iff now s).mpr hc] at hkeep
      cases hkeep
    · rintro ⟨hmem, hspec⟩
      refine ⟨hmem, ?_⟩
      have : sweepable now s = false := by
        cases hsw : sweepable now s with
        | false => rfl
        | true => exact absurd ((sweepable_iff now s).mp hsw) hspec
      rw [this]
      rfl
  · exact List.filter_sublist store
  · unfold cleanupExpired
    rw [List.filter_filter]
    exact List.filter_congr fun s _ => Bool.and_self _

/-- Witness for C8: an immediately repeated sweep over a concrete store
is a no-op, by the theorem applied at that store. -/
theorem sweep_exact_and_idempotent_witness :
    cleanupExpired (cleanupExpired [demoSessA, demoSessB] 2000000) 2000000
      = cleanupExpired [demoSessA, demoSessB] 2000000 :=
  (sweep_exact_and_idempotent [demoSessA, demoSessB] 2000000).2.2

/-! ### C7: OTP verification is a pure predicate with strict expiry -/

/-- Claim C7: verifyOTP returns false exactly when no digest or no
expiry is stored, or the stored expiry is strictly before now, or the
digest of the candidate differs from the stored digest — and otherwise
returns true; in particular a matching code presented strictly after
issue time plus the expiry window is rejected.  The function is a pure
predicate over the record: it returns only a Bool and leaves the record
untouched. -/
theorem verifyOTP_spec :
    ∀ (u : User) (code : String) (now : Nat),
      (verifyOTP u code now = false ↔
        u.emailOTP = none ∨ u.emailOTPExpires = none ∨
        (∃ e, u.emailOTPExpires = some e ∧ e < now) ∨
        (∃ h, u.emailOTP = some h ∧ hashOtp code ≠ h))
      ∧ ∀ issueTime, issueTime + OTP_EXPIRY < now →
          verifyOTP (createEmailOTP u code issueTime) code now = false := by
  intro u code now
  constructor
  · cases ho : u.emailOTP with
    | none => simp [verifyOTP, ho]
    | some stored =>
      cases he : u.emailOTPExpires with
      | none => simp [verifyOTP, ho, he]
      | some e =>
        by_cases hlt : e < now
        · simp [verifyOTP, ho, he, hlt]
        · simp only [verifyOTP, ho, he, hlt, if_false]
          rw [beq_eq_false_iff_ne]
          simp [hlt, ne_comm]
  · intro issueTime hexp
    simp [verifyOTP, createEmailOTP, hexp]

/-- Witness for C7: a matching code presented after the expiry window
fails. -/
theorem verifyOTP_spec_witness :
    verifyOTP (createEmailOTP baseUser "123456" 0) "123456" 700000 = false :=
  (verifyOTP_spec baseUser "123456" 700000).2 0 (by decide)

/-! ### C9 and C3: what the two authentication paths consult -/

/-- Shared success shape of authenticateWithSession: a valid unexpired
token whose session is live and whose user is active authenticates,
whatever the other user fields hold. -/
theorem authWithSession_ok (tok : Token) (sessions : List Session)
    (users : List User) (now : Nat) (sid : String) (s : Session) (u : User)
    (hsig : tok.sigValid = true)
    (hexp : now / 1000 < tok.exp)
    (hsid : tok.sessionId = some sid)
    (hsess : findSessionForAuth sessions sid tok.uid now = some s)
    (huser : findUserById users tok.uid = some u)
    (hactive : u.isActive = true) :
    authenticateWithSession (some tok) sessions users now = .ok tok.uid (some sid) := by
  have hexp' : ¬ tok.exp ≤ now / 1000 := Nat.not_le.mpr hexp
  simp [authenticateWithSession, hsig, hexp', hsid, hsess, huser, hactive]

/-- Claim C9: the session-validation path consults only the token
signature and expiry, the referenced session (isActive and expiresAt) and
the user isActive flag — never isLocked or lockUntil.  In particular a
user with isActive true and isLocked true keeps authenticating over an
active unexpired session.  The user record u is otherwise arbitrary, so
no other field of it can influence the outcome. -/
theorem session_auth_ignores_lock (tok : Token) (sessions : List Session)
    (users : List User) (now : Nat) (sid : String) (s : Session) (u : User)
    (hsig : tok.sigValid = true)
    (hexp : now / 1000 < tok.exp)
    (hsid : tok.sessionId = some sid)
    (hsess : findSessionForAuth sessions sid tok.uid now = some s)
    (huser : findUserById users tok.uid = some u)
    (hactive : u.isActive = true)
    (hlocked : u.isLocked = true) :
    authenticateWithSession (some tok) sessions users now = .ok tok.uid (some sid) :=
  authWithSession_ok tok sessions users now sid s u hsig hexp hsid hsess huser hactive

/-- Witness for C9: a locked but active user with a live session. -/
theorem session_auth_ignores_lock_witness :
    authenticateWithSession (some cpTok) [cpSession] [lockedActiveUser] 500000
      = .ok 1 (some "sid9") :=
  session_auth_ignores_lock cpTok [cpSession] [lockedActiveUser] 500000 "sid9"
    cpSession lockedActiveUser (by decide) (by decide) (by decide) (by decide)
    (by decide) (by decide) (by decide)

/-- Counterexample to claim C3: a session-bound token issued at second
1000, before changePassword stamps passwordChangedAt at ms 5000000, still
authenticates through authenticateWithSession at ms 6000000 although the
token expiry has not elapsed — the claim says it must fail with an
authentication error. -/
theorem password_change_session_path_counterexample :
    changePassword baseUser "correct" "newpw" 5000000 = some cpUserAfter
    ∧ cpTok.iat * 1000 < 5000000
    ∧ changedPasswordAfter cpUserAfter cpTok.iat = true
    ∧ 6000000 / 1000 < cpTok.exp
    ∧ authenticateWithSession (some cpTok) [cpSession] [cpUserAfter] 6000000
        = .ok 1 (some "sid9") := by
  decide

/-- Claim C3 amended: a token issued strictly before the
passwordChangedAt stamp (in whole seconds) fails the generic JWT
authenticate middleware with an authentication error; the
session-validation path authenticateWithSession never consults
passwordChangedAt, so such a token continues to authenticate there as
long as its session is active and unexpired and the user is active. -/
theorem password_change_invalidation_amended :
    (∀ (tok : Token) (users : List User) (u : User) (now : Nat),
       tok.sigValid = true → now / 1000 < tok.exp →
       findUserById users tok.uid = some u →
       u.isActive = true → u.isLocked = false →
       changedPasswordAfter u tok.iat = true →
       authenticate (some tok) users now
         = .authError "Password was changed recently. Please log in again")
    ∧ (∀ (tok : Token) (sessions : List Session) (users : List User)
        (now : Nat) (sid : String) (s : Session) (u : User),
       tok.sigValid = true → now / 1000 < tok.exp →
       tok.sessionId = some sid →
       findSessionForAuth sessions sid tok.uid now = some s →
       findUserById users tok.uid = some u →
       u.isActive = true →
       changedPasswordAfter u tok.iat = true →
       authenticateWithSession (some tok) sessions users now
         = .ok tok.uid (some sid)) := by
  constructor
  · intro tok users u now hsig hexp huser hactive hunlocked hchanged
    have hexp' : ¬ tok.exp ≤ now / 1000 := Nat.not_le.mpr hexp
    simp [authenticate, hsig, hexp', huser, hactive, hunlocked, hchanged]
  · intro tok sessions users now sid s u hsig hexp hsid hsess huser hactive _
    exact authWithSession_ok tok sessions users now sid s u hsig hexp hsid
      hsess huser hactive

/-- Witness for the amended C3 on the concrete password-change scenario. -/
theorem password_change_invalidation_amended_witness :
    authenticate (some cpTok) [cpUserAfter] 6000000
      = .authError "Password was changed recently. Please log in again"
    ∧ authenticateWithSession (some cpTok) [cpSession] [cpUserAfter] 6000000
      = .ok 1 (some "sid9") :=
  ⟨password_change_invalidation_amended.1 cpTok [cpUserAfter] cpUserAfter
      6000000 (by decide) (by decide) (by decide) (by decide) (by decide)
      (by decide),
   password_change_invalidation_amended.2 cpTok [cpSession] [cpUserAfter]
      6000000 "sid9" cpSession cpUserAfter (by decide) (by decide) (by decide)
      (by decide) (by decide) (by decide) (by decide)⟩

/-! ### C2: the account lock never expires on the login path -/

/-- Claim C2 is contradicted by the code: five consecutive wrong-password
attempts do lock the account with lockUntil two hours ahead, and a locked
account rejects even the correct password — but the login path gates on
the persistent isLocked flag, which nothing clears once lockUntil has
elapsed, so the correct password still fails with the lockout error long
after lockUntil, the record is returned unchanged, and the
counter-reset-to-1 branch of incLoginAttempts stays unreachable from
login.  The first conjuncts show the four-attempt state is not yet
locked and that the correct password succeeds before the lock. -/
theorem lockout_never_auto_unlocks :
    c2after4.isLocked = false
    ∧ c2after4.loginAttempts = 4
    ∧ (loginCheck baseUser "correct" 500).1 = .ok
    ∧ c2after5.isLocked = true
    ∧ c2after5.lockUntil = some 7205000
    ∧ (7205000 : Nat) < 99999999
    ∧ loginCheck c2after5 "correct" 99999999
        = (.failure "Account is locked", c2after5) := by
  decide

/-! ### C6: registration OTP conflicts on any existing owner of the email -/

/-- Counterexample to claim C6: an inactive unverified placeholder
already owning the email is supposed to be reused with a fresh OTP, but
sendRegistrationOTP raises the conflict because its first lookup matches
any owner of the email. -/
theorem registration_otp_placeholder_counterexample :
    regPlaceholder.isActive = false
    ∧ regPlaceholder.isEmailVerified = false
    ∧ regPlaceholder.email = "b@y.com"
    ∧ (sendRegistrationOTP [regPlaceholder] "bob" "b@y.com" 0 "123456" 8)
        = (.conflict, [regPlaceholder]) := by
  decide

/-- Claim C6 amended: sendRegistrationOTP fails with the conflict
whenever any user record — active or not, verified or not — already owns
the email, leaving the store unchanged; only when no record owns the
email does it create a fresh inactive unverified placeholder with the OTP
digest and expiry attached and append it (the reuse branch of the source
is unreachable). -/
theorem registration_otp_conflict_amended :
    (∀ (users : List User) (name email : String) (now : Nat) (code : String)
       (newUid : Nat),
       (users.find? fun u => u.email == email).isSome = true →
       sendRegistrationOTP users name email now code newUid = (.conflict, users))
    ∧ (∀ (users : List User) (name email : String) (now : Nat) (code : String)
       (newUid : Nat),
       (users.find? fun u => u.email == email) = none →
       sendRegistrationOTP users name email now code newUid
         = (.otpSent (createEmailOTP (mkTempUser newUid name email) code now),
            users ++ [createEmailOTP (mkTempUser newUid name email) code now])
       ∧ (createEmailOTP (mkTempUser newUid name email) code now).isActive = false
       ∧ (createEmailOTP (mkTempUser newUid name email) code now).isEmailVerified
           = false
       ∧ (createEmailOTP (mkTempUser newUid name email) code now).emailOTP
           = some (hashOtp code)
       ∧ (createEmailOTP (mkTempUser newUid name email) code now).emailOTPExpires
           = some (now + OTP_EXPIRY)) := by
  constructor
  · intro users name email now code newUid howner
    unfold sendRegistrationOTP
    rw [if_pos howner]
  · intro users name email now code newUid howner
    have hinner : (users.find? fun u => u.email == email && !u.isEmailVerified)
        = none := by
      rw [List.find?_eq_none] at howner ⊢
      intro x hx
      simp only [Bool.and_eq_true, not_and]
      intro hmail _
      exact howner x hx hmail
    refine ⟨?_, rfl, rfl, rfl, rfl⟩
    unfold sendRegistrationOTP
    rw [if_neg (by rw [howner]; simp), hinner]

/-- Witness for the amended C6: the conflict on the placeholder-owned
email and the fresh-placeholder path on an unowned email. -/
theorem registration_otp_conflict_amended_witness :
    sendRegistrationOTP [regPlaceholder] "bob" "b@y.com" 0 "123456" 8
      = (.conflict, [regPlaceholder])
    ∧ sendRegistrationOTP [] "amy" "c@z.com" 0 "654321" 9
      = (.otpSent (createEmailOTP (mkTempUser 9 "amy" "c@z.com") "654321" 0),
         [] ++ [createEmailOTP (mkTempUser 9 "amy" "c@z.com") "654321" 0]) :=
  ⟨registration_otp_conflict_amended.1 [regPlaceholder] "bob" "b@y.com" 0
      "123456" 8 (by decide),
   (registration_otp_conflict_amended.2 [] "amy" "c@z.com" 0 "654321" 9
      (by decide)).1⟩

end GoChart
